import Mathlib

/-!
# Verification of the Reportes pipeline against its specification

Shallow embedding of the parts of the `Sntg04/Reportes` repository that the
frozen claims concern:

* the Portfolio Classifier (`extract_cartera_from_gerencia_and_rango`,
  `detectar_aplicativo`, `_validar_frs_con_rango` in
  `reportes/2_Reporte_Admin_Cobranza.py`);
* the time-format converters (`convert_time_format` in
  `reportes/2_Reporte_Admin_Cobranza.py`, `convertir_hora_formato` in
  `reportes/3_Reporte_Reporteria.py`);
* the record reconciler (`generate_report_rows` and the post-filter in
  `procesar_reporteria_cobranza`, `reportes/3_Reporte_Reporteria.py`);
* the schema-mapper token-overlap rule and the emitted indicator formulas of
  the Operativo sheet (`crear_hoja_operativo` in
  `reportes/4_Reporte_Calidad.py`).

Python strings are embedded as `List Char`; each Python string primitive used
by the source (`strip`, `upper`, `lower`, `split`, `zfill`, `in`, `int(...)`)
gets a faithful executable counterpart below.  Excel formulas emitted by
`crear_hoja_operativo` are embedded as Lean functions whose `if` structure
mirrors the emitted `IF(...)` expression text, with the referenced cells as
arguments.
-/

/-! ## Python string primitives over `List Char`

Only ASCII behaviour is modelled for case mapping (the business tokens the
source compares — `M0`, `PP`, `FRS`, `AM`, `PM`, ... — are all ASCII).
-/

/-- The character list of a string literal (Python source strings). -/
def pystr (s : String) : List Char := s.data

/-- Python `str.strip()`: remove leading and trailing whitespace. -/
def pyStrip (s : List Char) : List Char :=
  ((s.dropWhile Char.isWhitespace).reverse.dropWhile Char.isWhitespace).reverse

/-- Python `str.upper()` (ASCII). -/
def pyUpper (s : List Char) : List Char := s.map Char.toUpper

/-- Python `str.lower()` (ASCII). -/
def pyLower (s : List Char) : List Char := s.map Char.toLower

/-- Python `needle in hay` for strings: substring containment. -/
def containsSub (needle : List Char) : List Char → Bool
  | [] => needle.isEmpty
  | c :: rest => needle.isPrefixOf (c :: rest) || containsSub needle rest

/-- Python `s.split(sep)` for a one-character separator: keeps empty pieces,
`"".split(sep) = [""]`. -/
def pySplitOn (sep : Char) : List Char → List (List Char)
  | [] => [[]]
  | c :: rest =>
    let r := pySplitOn sep rest
    if c = sep then [] :: r
    else
      match r with
      | [] => [[c]]
      | h :: t => (c :: h) :: t

/-- Python `s.split()` (no argument): split on whitespace runs, dropping
empty pieces. -/
def pySplitWs (s : List Char) : List (List Char) :=
  (pySplitOn ' ' (s.map fun c => if c.isWhitespace then ' ' else c)).filter
    (fun p => !p.isEmpty)

/-- Python `s.zfill(2)`: left-pad with `'0'` to width 2, keeping a leading
sign in front of the padding. -/
def zfill2 (s : List Char) : List Char :=
  match s with
  | [] => ['0', '0']
  | [c] => if c = '+' ∨ c = '-' then [c, '0'] else ['0', c]
  | _ => s

/-- Digit-string to number; `none` if empty or not all ASCII digits. -/
def digitsToNat (l : List Char) : Option Nat :=
  if l ≠ [] ∧ l.all Char.isDigit then
    some (l.foldl (fun n c => 10 * n + (c.toNat - 48)) 0)
  else none

/-- Python `int(s)`: strip whitespace, optional sign, decimal digits.
(Underscore digit separators and non-ASCII digits are not modelled; no input
below uses them.) -/
def pyInt (s : List Char) : Option Int :=
  match pyStrip s with
  | '+' :: rest => (digitsToNat rest).map Int.ofNat
  | '-' :: rest => (digitsToNat rest).map (fun n => -(n : Int))
  | l => (digitsToNat l).map Int.ofNat

/-- Decimal digits of a natural number, most significant first (fuel-based so
that it reduces by `rfl`/`decide`; `natToStr n` uses fuel `n + 1`, always
enough since the argument is divided by ten each step). -/
def natToStrAux : Nat → Nat → List Char → List Char
  | 0, _, acc => acc
  | fuel + 1, n, acc =>
    let d := Char.ofNat (48 + n % 10)
    if n < 10 then d :: acc else natToStrAux fuel (n / 10) (d :: acc)

/-- Decimal representation of a natural number. -/
def natToStr (n : Nat) : List Char := natToStrAux (n + 1) n []

/-- Python `str(i)` for an `int` value. -/
def intToStr (i : Int) : List Char :=
  if i < 0 then '-' :: natToStr i.natAbs else natToStr i.natAbs

/-! ## Portfolio Classifier — `reportes/2_Reporte_Admin_Cobranza.py`

`RANGOS_FRS_M11A` (line 41), `detectar_aplicativo` (line 126),
`_validar_frs_con_rango` (line 69), and
`extract_cartera_from_gerencia_and_rango` (line 152).  Inputs are assumed to
be actual strings (the `pd.notna` guard on line 169 concerns missing cells,
which are out of scope here). -/

/-- `RANGOS_FRS_M11A` constant, line 41. -/
def RANGOS_FRS_M11A : List (List Char) :=
  [pystr "RM1-1A", pystr "R M1-1A", pystr "RM11A", pystr "R M11A",
   pystr "RM1-1", pystr "R M1-1", pystr "RM11", pystr "R M11"]

/-- `detectar_aplicativo(gerencia_text)`, line 126: first of FRS/PN/BT found
in the uppercased management text, else `None`. -/
def detectar_aplicativo (gerencia_text : List Char) : Option (List Char) :=
  let gerencia_upper := pyUpper gerencia_text
  if containsSub (pystr "FRS") gerencia_upper then some (pystr "FRS")
  else if containsSub (pystr "PN") gerencia_upper then some (pystr "PN")
  else if containsSub (pystr "BT") gerencia_upper then some (pystr "BT")
  else none

/-- `_validar_frs_con_rango(aplicativo, rango_upper, cartera_base)`, line 69.
For a detected non-FRS application on an `M0` base the source returns
`M0-{aplicativo}` (its own comment: "no M0-PP-BT sino M0-BT"). -/
def validar_frs_con_rango (aplicativo : Option (List Char))
    (rango_upper cartera_base : List Char) : List Char :=
  match aplicativo with
  | some a =>
    if a = pystr "FRS" then
      if RANGOS_FRS_M11A.any (fun rango => containsSub rango rango_upper) then
        pystr "M1-1A-FRS"
      else pystr "M0-FRS"
    else if (pystr "M0").isPrefixOf cartera_base then pystr "M0-" ++ a
    else cartera_base ++ pystr "-" ++ a
  | none => cartera_base

/-- Guard of REGLA 1 (line 185): `M1-2`. -/
def regla1 (gU gL : List Char) : Bool :=
  containsSub (pystr "M1-2") gU || containsSub (pystr "M12") gU ||
  containsSub (pystr "m1-2") gL || containsSub (pystr "m12") gL

/-- Guard of REGLA 2 (line 190): `M1-1B`. -/
def regla2 (gU gL : List Char) : Bool :=
  containsSub (pystr "M1-1B") gU || containsSub (pystr "M11B") gU ||
  containsSub (pystr "m1-1b") gL || containsSub (pystr "m11b") gL

/-- Guard of REGLA 3 (line 195): `M0-1 PP`. -/
def regla3 (gU gL : List Char) : Bool :=
  (containsSub (pystr "M0-1") gU && containsSub (pystr "PP") gU) ||
  containsSub (pystr "M0-1PP") gU ||
  (containsSub (pystr "m0-1") gL && containsSub (pystr "pp") gL) ||
  containsSub (pystr "m0-1pp") gL

/-- Guard of REGLA 4 (line 200): the BEATRIZ/NANCY named exception. -/
def regla4 (gU : List Char) : Bool :=
  containsSub (pystr "M1-1") gU && containsSub (pystr "A") gU &&
  containsSub (pystr "BEATRIZ") gU && containsSub (pystr "NANCY") gU

/-- Guard of REGLA 5 (line 205): `M1-1A`. -/
def regla5 (gU gL : List Char) : Bool :=
  containsSub (pystr "M1-1A") gU || containsSub (pystr "M11A") gU ||
  containsSub (pystr "m1-1a") gL || containsSub (pystr "m11a") gL

/-- Guard of REGLA 6 (line 210): `M0` and `PP`.  Note the third disjunct of
the source searches lowercase `'m0'` in the *raw* `gerencia_text`, not in its
lowercased form. -/
def regla6 (gU gL gRaw : List Char) : Bool :=
  (containsSub (pystr "M0") gU && containsSub (pystr "PP") gU) ||
  containsSub (pystr "M0PP") gU ||
  (containsSub (pystr "m0") gRaw && containsSub (pystr "pp") gL) ||
  containsSub (pystr "m0pp") gL

/-- Guard of REGLA 7 (line 215): `M0` and `VP` (same raw-text quirk). -/
def regla7 (gU gL gRaw : List Char) : Bool :=
  (containsSub (pystr "M0") gU && containsSub (pystr "VP") gU) ||
  containsSub (pystr "M0VP") gU ||
  (containsSub (pystr "m0") gRaw && containsSub (pystr "vp") gL) ||
  containsSub (pystr "m0vp") gL

/-- `extract_cartera_from_gerencia_and_rango(gerencia_text, rango_text)`,
line 152: the ordered rule cascade. -/
def extract_cartera_from_gerencia_and_rango
    (gerencia_text rango_text : List Char) : List Char :=
  if pyStrip gerencia_text = [] then []
  else
    let gerencia_upper := pyStrip (pyUpper gerencia_text)
    let rango_upper := pyStrip (pyUpper rango_text)
    let gerencia_lower := pyStrip (pyLower gerencia_text)
    let aplicativo := detectar_aplicativo gerencia_text
    if regla1 gerencia_upper gerencia_lower then pystr "M1-2"
    else if regla2 gerencia_upper gerencia_lower then pystr "M1-1B"
    else if regla3 gerencia_upper gerencia_lower then pystr "M0-1 PP"
    else if regla4 gerencia_upper then pystr "M1-1A-PN"
    else if regla5 gerencia_upper gerencia_lower then
      validar_frs_con_rango aplicativo rango_upper (pystr "M1-1A")
    else if regla6 gerencia_upper gerencia_lower gerencia_text then
      validar_frs_con_rango aplicativo rango_upper (pystr "M0-PP")
    else if regla7 gerencia_upper gerencia_lower gerencia_text then
      validar_frs_con_rango aplicativo rango_upper (pystr "M0-VP")
    else pyStrip gerencia_text

/-! ## Time Normalizer, part 1 — `convert_time_format`
(`reportes/2_Reporte_Admin_Cobranza.py`, line 353)

Converts heterogeneous time strings to `H:MM:SS AM/PM`.  String inputs only
(`pd.isna` is `False` for strings).  A failing `int(...)` raises inside the
`try:` block and the `except:` handler returns `str(value)` unchanged; this
is modelled by the `none` branches of `pyInt`. -/

/-- Body of the `H:MM:SS AM/PM` formatting used at lines 384–398 (and the
identical 403–419): 12-hour clock text from the parsed hour and the
zero-filled minute/second strings. -/
def fmt12 (hour : Int) (minute second : List Char) : List Char :=
  let period := if hour < 12 then pystr "AM" else pystr "PM"
  let hour12 := if hour ≤ 12 then hour else hour - 12
  let hour12 := if hour12 = 0 then 12 else hour12
  intToStr hour12 ++ [':'] ++ minute ++ [':'] ++ second ++ [' '] ++ period

/-- The shared `len(parts)`-dispatch of lines 381–398 / 402–419, acting on
the `':'`-split pieces; `exceptValue` is what the `except:` handler returns
(the original `value`), `fallthrough` what the trailing lines 421–425 return. -/
def convertParts (value value_str : List Char) (parts : List (List Char)) :
    List Char :=
  if 3 ≤ parts.length then
    match pyInt (parts.getD 0 []) with
    | some hour => fmt12 hour (zfill2 (parts.getD 1 [])) (zfill2 (parts.getD 2 []))
    | none => if value ≠ pystr "nan" then value else []
  else if parts.length = 2 then
    match pyInt (parts.getD 0 []) with
    | some hour => fmt12 hour (zfill2 (parts.getD 1 [])) (pystr "00")
    | none => if value ≠ pystr "nan" then value else []
  else if value_str ≠ [] ∧ value_str ≠ pystr "nan" then value_str else []

/-- Lines 372–425 of `convert_time_format`, after `value_str` has been
computed from `value` (factored out so that theorems can speak about the
already-stripped string). -/
def convertBody (value value_str : List Char) : List Char :=
  if containsSub (pystr "AM") (pyUpper value_str) ||
     containsSub (pystr "PM") (pyUpper value_str) then value_str
  else if containsSub (pystr " ") value_str &&
          containsSub (pystr ":") value_str then
    convertParts value value_str
      (pySplitOn ':' ((pySplitOn ' ' value_str).getD 1 []))
  else if containsSub (pystr ":") value_str then
    convertParts value value_str (pySplitOn ':' value_str)
  else if value_str ≠ [] ∧ value_str ≠ pystr "nan" then value_str else []

/-- `convert_time_format(value)`, line 353, for string inputs. -/
def convert_time_format (value : List Char) : List Char :=
  if value = [] then [] else convertBody value (pyStrip value)

/-! ## Time Normalizer, part 2 — `convertir_hora_formato`
(`reportes/3_Reporte_Reporteria.py`, line 341)

`datetime.strptime` on the four formats `%H:%M:%S`, `%H:%M`, `%I:%M:%S %p`,
`%I:%M %p` (strict full-string match, 1–2 digit numeric fields with range
checks), then a `pd.to_datetime(..., errors='coerce')` fallback.  The pandas
fallback is a third-party library call; it is a parameter `pdParse`
(returning the parsed clock time, or `none` for `NaT`).

Although the `%S` directive's pattern nominally admits 60–61, the
`datetime` constructor then raises `ValueError: second must be in 0..59`,
which the caller's `except ValueError: continue` treats exactly like a
format mismatch — so the effective seconds bound of a *successful*
`strptime` call is 59, and that is what the embedding uses. -/

/-- One 1–2 digit `strptime` numeric field bounded by `hi`. -/
def strpField (hi : Nat) (l : List Char) : Option Nat :=
  if l.length = 1 ∨ l.length = 2 then
    match digitsToNat l with
    | some n => if n ≤ hi then some n else none
    | none => none
  else none

/-- `strptime(s, "%H:%M:%S")`. -/
def strptimeHMS (s : List Char) : Option (Nat × Nat × Nat) :=
  match pySplitOn ':' s with
  | [h, m, sec] =>
    match strpField 23 h, strpField 59 m, strpField 59 sec with
    | some hh, some mm, some ss => some (hh, mm, ss)
    | _, _, _ => none
  | _ => none

/-- `strptime(s, "%H:%M")`. -/
def strptimeHM (s : List Char) : Option (Nat × Nat × Nat) :=
  match pySplitOn ':' s with
  | [h, m] =>
    match strpField 23 h, strpField 59 m with
    | some hh, some mm => some (hh, mm, 0)
    | _, _ => none
  | _ => none

/-- The `%p` field: `AM`/`PM`, case-insensitively. -/
def strpMeridiem (l : List Char) : Option Bool :=
  if pyUpper l = pystr "AM" then some false
  else if pyUpper l = pystr "PM" then some true
  else none

/-- 12-hour to 24-hour: `%I` is 1–12, 12 AM ↦ 0, 12 PM ↦ 12. -/
def hour12to24 (h : Nat) (pm : Bool) : Nat :=
  (h % 12) + (if pm then 12 else 0)

/-- `strptime(s, "%I:%M:%S %p")`. -/
def strptimeIMSp (s : List Char) : Option (Nat × Nat × Nat) :=
  match pySplitOn ' ' s with
  | [t, p] =>
    match pySplitOn ':' t, strpMeridiem p with
    | [h, m, sec], some pm =>
      match strpField 12 h, strpField 59 m, strpField 59 sec with
      | some hh, some mm, some ss =>
        if 1 ≤ hh then some (hour12to24 hh pm, mm, ss) else none
      | _, _, _ => none
    | _, _ => none
  | _ => none

/-- `strptime(s, "%I:%M %p")`. -/
def strptimeIMp (s : List Char) : Option (Nat × Nat × Nat) :=
  match pySplitOn ' ' s with
  | [t, p] =>
    match pySplitOn ':' t, strpMeridiem p with
    | [h, m], some pm =>
      match strpField 12 h, strpField 59 m with
      | some hh, some mm =>
        if 1 ≤ hh then some (hour12to24 hh pm, mm, 0) else none
      | _, _ => none
    | _, _ => none
  | _ => none

/-- `hora_obj.strftime('%I:%M:%S %p').lstrip('0')` (lines 364/371): two-digit
12-hour clock, then all leading `'0'`s stripped. -/
def strftimeIMSp (h m s : Nat) : List Char :=
  let h12 := if h % 12 = 0 then 12 else h % 12
  ((zfill2 (natToStr h12) ++ [':'] ++ zfill2 (natToStr m) ++ [':'] ++
    zfill2 (natToStr s) ++ [' '] ++
    (if h < 12 then pystr "AM" else pystr "PM"))).dropWhile (· = '0')

/-- `convertir_hora_formato(hora_str)`, line 341, for string inputs;
`pdParse` stands for the `pd.to_datetime(..., errors='coerce')` fallback of
line 369. -/
def convertir_hora_formato (pdParse : List Char → Option (Nat × Nat × Nat))
    (hora_str : List Char) : List Char :=
  if hora_str = [] then []
  else
    let s := pyStrip hora_str
    if containsSub (pystr "AM") (pyUpper s) ||
       containsSub (pystr "PM") (pyUpper s) then s
    else
      match strptimeHMS s with
      | some (h, m, sec) => strftimeIMSp h m sec
      | none =>
        match strptimeHM s with
        | some (h, m, sec) => strftimeIMSp h m sec
        | none =>
          match strptimeIMSp s with
          | some (h, m, sec) => strftimeIMSp h m sec
          | none =>
            match strptimeIMp s with
            | some (h, m, sec) => strftimeIMSp h m sec
            | none =>
              match pdParse s with
              | some (h, m, sec) => strftimeIMSp h m sec
              | none => s

/-- The pandas fallback `pd.to_datetime(..., errors='coerce')` evaluated on
inputs pandas cannot interpret as a date or time (such as the plain word
`"abc"` used below), where it yields `NaT`; modelled as the constantly-`none`
parse. -/
def pdCoerceNone : List Char → Option (Nat × Nat × Nat) := fun _ => none

/-! ## Record Reconciler — `reportes/3_Reporte_Reporteria.py`

`generate_report_rows` (line 680) walks the roster (`base_asesores`) and
merges, per person, the operations row found by ID in `admin_map` and the
telephony row found by extension in `llamadas_map`; a missing key yields the
empty dict `{}`, whose fields `safe_get_value` replaces by `''`/`0`.  The
maps are embedded as association lists.  Only the row fields the claims
touch are modelled (`ID`, `EXT`, `Logueo`, `Llamadas Microsip`,
`Llamadas VOIP`, `Total Llamadas`); the remaining columns are built by the
same pattern from the same two lookups.  The numeric
`safe_float_conversion` result for the telephony call count is carried as a
rational. -/

/-- One roster entry of `base_asesores` (the fields used for the keys). -/
structure Asesor where
  id : List Char
  ext : List Char
deriving DecidableEq, Repr

/-- One operations row of `admin_map` (claim-relevant field only): the raw
`LOGUEO` cell value (line 710), `''` when the column is absent. -/
structure AdminRow where
  logueo : List Char
deriving DecidableEq, Repr

/-- One telephony row of `llamadas_map`: the `TOTAL_LLAMADAS` value after
`safe_float_conversion` (lines 697–698). -/
structure LlamadasRow where
  totalLlamadas : ℚ
deriving DecidableEq, Repr

/-- The claim-relevant columns of one emitted report row (lines 700–726). -/
structure ReportRow where
  idRow : List Char
  ext : List Char
  logueo : List Char
  llamadasMicrosip : ℚ
  llamadasVoip : ℚ
  totalLlamadas : ℚ
deriving DecidableEq, Repr

/-- `generate_report_rows(base_asesores, admin_map, llamadas_map, ...)`,
line 680, restricted to the modelled columns.  `pdParse` is the pandas
fallback threaded into `convertir_hora_formato`. -/
def generate_report_rows (pdParse : List Char → Option (Nat × Nat × Nat))
    (base_asesores : List Asesor)
    (admin_map : List (List Char × AdminRow))
    (llamadas_map : List (List Char × LlamadasRow)) : List ReportRow :=
  base_asesores.map fun asesor =>
    let admin_row := admin_map.lookup asesor.id
    let llamadas_row := llamadas_map.lookup asesor.ext
    let llamadas_microsip := ((llamadas_row.map LlamadasRow.totalLlamadas).getD 0)
    { idRow := asesor.id
      ext := asesor.ext
      logueo := convertir_hora_formato pdParse
        ((admin_row.map AdminRow.logueo).getD [])
      llamadasMicrosip := llamadas_microsip
      llamadasVoip := 0
      totalLlamadas := llamadas_microsip }

/-- The post-filter of `procesar_reporteria_cobranza` (lines 616–620): rows
whose `Logueo` is empty or `'N/A'` are removed before the sheet is written. -/
def filtrarSinLogueo (rows : List ReportRow) : List ReportRow :=
  rows.filter fun r => !(r.logueo = [] ∨ r.logueo = pystr "N/A")

/-! ## Schema Mapper token-overlap rule — `reportes/4_Reporte_Calidad.py`

Lines 2062–2071 of `crear_hoja_operativo`: both (already accent-normalized,
lowercased, stripped) column names have `'%'` replaced by `'porcentaje'`,
are split into whitespace token *sets*, and the pair is accepted when at
least 80 % of the canonical (Operativo) name's tokens are members of the raw
(Reporte 3) name's token set.  The preceding exact and accent-normalized
passes (lines 2050–2060) and the `unicodedata` accent stripping are not
modelled; the claim is about this partial-match rule. -/

/-- `set(name.replace('%', 'porcentaje').split())` as a deduplicated token
list (replacing the one-character `'%'` pattern is a per-character
substitution). -/
def palabras (name : List Char) : List (List Char) :=
  (pySplitWs (name.flatMap fun c =>
    if c = '%' then pystr "porcentaje" else [c])).dedup

/-- The acceptance test of lines 2067–2069:
`len(palabras_operativo & palabras_reporte3) / len(palabras_operativo) >= 0.8`
(stated over integers: `k / n ≥ 0.8  ↔  10 * k ≥ 8 * n`; the float division
of the source is exact enough at these magnitudes for the two to agree). -/
def coincidenciaParcial (col_op_normalizado col_r3_normalizado : List Char) :
    Bool :=
  let palabras_operativo := palabras col_op_normalizado
  let palabras_reporte3 := palabras col_r3_normalizado
  decide (0 < palabras_operativo.length) &&
  decide (8 * palabras_operativo.length ≤
    10 * (palabras_operativo.filter (fun t => t ∈ palabras_reporte3)).length)

/-- Follows the spec's words (§4.1 rule (c)): "split both names into
whitespace-delimited tokens, accept if ≥80% of the canonical field's tokens
appear as substrings somewhere in the raw name's tokens" — i.e. a canonical
token counts as soon as it occurs *inside* some raw token. -/
def coincidenciaParcialSpec (col_op_normalizado col_r3_normalizado : List Char) :
    Bool :=
  let palabras_operativo := palabras col_op_normalizado
  let palabras_reporte3 := palabras col_r3_normalizado
  decide (0 < palabras_operativo.length) &&
  decide (8 * palabras_operativo.length ≤
    10 * (palabras_operativo.filter
      (fun t => palabras_reporte3.any fun b => containsSub t b)).length)

/-! ## Indicator formulas of the Operativo sheet —
`reportes/4_Reporte_Calidad.py`, `crear_hoja_operativo`

Each emitted Excel formula is embedded as a function of the cell values it
references; the nested `if` structure mirrors the emitted `IF(...)` text.
Time cells are compared through `TIMEVALUE`, embedded as seconds since
midnight (`TIMEVALUE` yields the fraction `secs/86400`, so `≤` agrees). -/

/-- `ConfigReporte.VALOR_INDICADOR_CUMPLE` (line 186). -/
def VALOR_INDICADOR_CUMPLE : ℚ := 15/100

/-- `ConfigReporte.VALOR_INDICADOR_TOQUES` (line 191). -/
def VALOR_INDICADOR_TOQUES : ℚ := 2/10

/-- `obtener_columnas_operativo()` (line 1995): the 36 Operativo columns in
sheet order. -/
def columnas_operativo : List String :=
  ["CODIGO", "Tipo Jornada", "Fecha", "Cedula", "ID", "EXT", "VOIP", "Nombre",
   "Sede", "Ubicacion", "Logueo", "Mora", "Asignacion",
   "Clientes gestionados 11 am", "Capital Asignado", "Capital Recuperado",
   "PAGOS", "% Recuperado", "% Cuentas", "Total toques", "Ultimo Toque",
   "Llamadas Microsip", "Llamadas VOIP", "Total Llamadas", "Gerencia", "Team",
   "Meta", "Ejecucion", "Ind Logueo", "Ind Ultimo", "Ind Ges Medio",
   "Ind Llamadas", "Indicador Toques", "Ind Pausa", "Total Infracciones",
   "Total Operativo"]

/-- Excel `TIMEVALUE` on a time literal, in seconds since midnight (the
serial fraction is `secs/86400`): `H:MM[:SS]` 24-hour text, or
`h:MM[:SS] AM/PM` 12-hour text. -/
def timevalueSecs (s : List Char) : Option Nat :=
  match pySplitOn ' ' (pyStrip s) with
  | [t] =>
    match pySplitOn ':' t with
    | [h, m] =>
      match strpField 23 h, strpField 59 m with
      | some hh, some mm => some (3600 * hh + 60 * mm)
      | _, _ => none
    | [h, m, sec] =>
      match strpField 23 h, strpField 59 m, strpField 59 sec with
      | some hh, some mm, some ss => some (3600 * hh + 60 * mm + ss)
      | _, _, _ => none
    | _ => none
  | [t, p] =>
    match strpMeridiem p, pySplitOn ':' t with
    | some pm, [h, m] =>
      match strpField 12 h, strpField 59 m with
      | some hh, some mm =>
        if 1 ≤ hh then some (3600 * hour12to24 hh pm + 60 * mm) else none
      | _, _ => none
    | some pm, [h, m, sec] =>
      match strpField 12 h, strpField 59 m, strpField 59 sec with
      | some hh, some mm, some ss =>
        if 1 ≤ hh then some (3600 * hour12to24 hh pm + 60 * mm + ss) else none
      | _, _, _ => none
    | _, _ => none
  | _ => none

/-- The `Ind Logueo` formula emitted at line 2319:
`=IF(AND(Logueo<>"",TipoJornada<>""),IF(TipoJornada="Pago",
IF(TIMEVALUE(Logueo)<=TIMEVALUE("7:30:00 AM"),0.15,0),
IF(TipoJornada="Normal",IF(TIMEVALUE(Logueo)<=TIMEVALUE("8:00:00 AM"),0.15,0),
0)),0)`.  `none` is an Excel `#VALUE!` error (unparseable `TIMEVALUE`
argument); both cells are compared to fixed-case literals produced by the
same emitter. -/
def indLogueoFormula (logueo tipoJornada : List Char) : Option ℚ :=
  if logueo ≠ [] ∧ tipoJornada ≠ [] then
    if tipoJornada = pystr "Pago" then
      match timevalueSecs logueo, timevalueSecs (pystr "7:30:00 AM") with
      | some a, some b => some (if a ≤ b then 15/100 else 0)
      | _, _ => none
    else if tipoJornada = pystr "Normal" then
      match timevalueSecs logueo, timevalueSecs (pystr "8:00:00 AM") with
      | some a, some b => some (if a ≤ b then 15/100 else 0)
      | _, _ => none
    else some 0
  else some 0

/-- The `Tipo Jornada` formula emitted at line 2218, as a function of
`DAY(fecha)`: `=IF(OR(DAY(F)=30,DAY(F)=31,DAY(F)=1,DAY(F)=2,DAY(F)=15,
DAY(F)=16,DAY(F)=17),"Pago","Normal")`. -/
def tipoJornadaFormula (day : Nat) : List Char :=
  if day = 30 ∨ day = 31 ∨ day = 1 ∨ day = 2 ∨ day = 15 ∨ day = 16 ∨ day = 17
  then pystr "Pago" else pystr "Normal"

/-- The `Ind Llamadas` formula emitted at line 2467:
`=IF(TotalLlamadas<>"",IF(TotalLlamadas>=150,0.2,0),0)`; the cell holds a
number when present (`none` = empty cell). -/
def indLlamadasFormula (totalLlamadas : Option ℚ) : ℚ :=
  match totalLlamadas with
  | some v => if 150 ≤ v then 2/10 else 0
  | none => 0

/-- Excel `COUNTIF(range, 0)`: the number of cells equal to `0`. -/
def countifZero (cells : List ℚ) : Nat := (cells.filter fun c => c = 0).length

/-- The `Ind Logueo .. Ind Pausa` row segment that the `Total Infracciones`
formula of line 2496 ranges over, with the `Ind Pausa` cell holding the fixed
`ConfigReporte.VALOR_INDICADOR_CUMPLE` written at line 2378. -/
def filaIndicadores (indLogueo indUltimo indGesMedio indLlamadas
    indicadorToques : ℚ) : List ℚ :=
  [indLogueo, indUltimo, indGesMedio, indLlamadas, indicadorToques,
   VALOR_INDICADOR_CUMPLE]

/-- The `Total Infracciones` formula emitted at line 2496:
`=COUNTIF(IndLogueo{row}:IndPausa{row},0)`. -/
def totalInfraccionesFormula (indLogueo indUltimo indGesMedio indLlamadas
    indicadorToques : ℚ) : Nat :=
  countifZero
    (filaIndicadores indLogueo indUltimo indGesMedio indLlamadas indicadorToques)

/-! ## Theorems for the claims -/

/-- C2: for every calendar day, the emitted `Tipo Jornada` formula yields
`"Pago"` exactly when the day-of-month is in `{1, 2, 15, 16, 17, 30, 31}` and
`"Normal"` exactly otherwise; in particular day 15 (as in `2025-08-15`) is
`"Pago"` and day 14 (as in `2025-08-14`) is `"Normal"`. -/
theorem claim_C2 (day : Nat) :
    (tipoJornadaFormula day = pystr "Pago" ↔
      day ∈ ({1, 2, 15, 16, 17, 30, 31} : Finset ℕ)) ∧
    (tipoJornadaFormula day = pystr "Normal" ↔
      day ∉ ({1, 2, 15, 16, 17, 30, 31} : Finset ℕ)) ∧
    tipoJornadaFormula 15 = pystr "Pago" ∧
    tipoJornadaFormula 14 = pystr "Normal" := by
  have hmem : day ∈ ({1, 2, 15, 16, 17, 30, 31} : Finset ℕ) ↔
      (day = 30 ∨ day = 31 ∨ day = 1 ∨ day = 2 ∨ day = 15 ∨ day = 16 ∨
        day = 17) := by
    simp only [Finset.mem_insert, Finset.mem_singleton]
    tauto
  refine ⟨?_, ?_, by decide, by decide⟩ <;>
    · unfold tipoJornadaFormula
      split <;> rename_i h <;> simp [hmem, h] <;> decide

/-- C10: the `Total Infracciones` formula is a `COUNTIF` for zeros over the
six cells `Ind Logueo .. Ind Pausa` (in exactly that column order), and since
the `Ind Pausa` cell always holds the constant `0.15`, the count equals the
number of zeros among the five variable indicators and is at most 5. -/
theorem claim_C10 :
    (columnas_operativo.drop 28).take 6 =
      ["Ind Logueo", "Ind Ultimo", "Ind Ges Medio", "Ind Llamadas",
       "Indicador Toques", "Ind Pausa"] ∧
    columnas_operativo.indexOf "Ind Logueo" = 28 ∧
    columnas_operativo.indexOf "Ind Pausa" = 33 ∧
    ∀ lg ul gm ll tq : ℚ,
      totalInfraccionesFormula lg ul gm ll tq = countifZero [lg, ul, gm, ll, tq] ∧
      totalInfraccionesFormula lg ul gm ll tq ≤ 5 := by
  refine ⟨by decide, by decide, by decide, fun lg ul gm ll tq => ?_⟩
  have heq : totalInfraccionesFormula lg ul gm ll tq =
      countifZero [lg, ul, gm, ll, tq] := by
    unfold totalInfraccionesFormula filaIndicadores countifZero
      VALOR_INDICADOR_CUMPLE
    rw [show ([lg, ul, gm, ll, tq, (15 : ℚ)/100]) =
          [lg, ul, gm, ll, tq] ++ [(15 : ℚ)/100] from rfl,
      List.filter_append, List.length_append]
    have hp : List.filter (fun c => decide (c = 0)) [(15 : ℚ)/100] = [] := by
      norm_num
    rw [hp]
    simp
  refine ⟨heq, ?_⟩
  rw [heq]
  calc countifZero [lg, ul, gm, ll, tq] ≤ [lg, ul, gm, ll, tq].length :=
        List.length_filter_le _ _
    _ = 5 := rfl

/-- C1: for a parseable login time (`t` its value in seconds since midnight;
`27000 = 7:30 AM`, `28800 = 8:00 AM`) and a schedule-type cell holding
`"Pago"` or `"Normal"`, the emitted `Ind Logueo` formula yields `0.15`
exactly when (`"Pago"` and login ≤ 7:30 AM) or (`"Normal"` and login ≤ 8:00
AM), and `0` otherwise. -/
theorem claim_C1 (logueo tipoJornada : List Char) (t : Nat)
    (hparse : timevalueSecs logueo = some t)
    (htj : tipoJornada = pystr "Pago" ∨ tipoJornada = pystr "Normal") :
    indLogueoFormula logueo tipoJornada =
      some (if (tipoJornada = pystr "Pago" ∧ t ≤ 27000) ∨
               (tipoJornada = pystr "Normal" ∧ t ≤ 28800)
            then 15/100 else 0) := by
  have hne : logueo ≠ [] := by
    intro he
    rw [he, (by decide : timevalueSecs ([] : List Char) = none)] at hparse
    cases hparse
  rcases htj with h | h <;> subst h
  · unfold indLogueoFormula
    rw [if_pos ⟨hne, by decide⟩, if_pos rfl, hparse,
      (by decide : timevalueSecs (pystr "7:30:00 AM") = some 27000)]
    by_cases ht : t ≤ 27000 <;>
      simp [ht, (by decide : pystr "Pago" ≠ pystr "Normal")]
  · unfold indLogueoFormula
    rw [if_pos ⟨hne, by decide⟩,
      if_neg (by decide : ¬ pystr "Normal" = pystr "Pago"), if_pos rfl, hparse,
      (by decide : timevalueSecs (pystr "8:00:00 AM") = some 28800)]
    by_cases ht : t ≤ 28800 <;>
      simp [ht, (by decide : pystr "Normal" ≠ pystr "Pago")]

/-- Witness for C1: the claim's scenario — a `"07:29:00"` login on a Payday
(`"Pago"`) record earns `0.15`, a `"07:31:00"` login on the same schedule
type earns `0`. -/
theorem claim_C1_witness :
    indLogueoFormula (pystr "07:29:00") (pystr "Pago") = some (15/100) ∧
    indLogueoFormula (pystr "07:31:00") (pystr "Pago") = some 0 := by
  constructor
  · rw [claim_C1 (pystr "07:29:00") (pystr "Pago") 26940 (by decide)
      (Or.inl rfl)]
    norm_num
  · rw [claim_C1 (pystr "07:31:00") (pystr "Pago") 27060 (by decide)
      (Or.inl rfl)]
    rw [if_neg (by decide)]

/-- The `Ind Llamadas` formula on a numeric cell: `0.2` iff the value is at
least 150, else `0`. -/
theorem indLlamadasFormula_spec (v : ℚ) :
    (indLlamadasFormula (some v) = 2/10 ↔ 150 ≤ v) ∧
    (¬ 150 ≤ v → indLlamadasFormula (some v) = 0) := by
  by_cases hc : (150 : ℚ) ≤ v
  · rw [show indLlamadasFormula (some v) = 2/10 by
      simp [indLlamadasFormula, hc]]
    exact ⟨⟨fun _ => hc, fun _ => rfl⟩, fun h => absurd hc h⟩
  · rw [show indLlamadasFormula (some v) = 0 by
      simp [indLlamadasFormula, hc]]
    exact ⟨⟨fun h0 => absurd h0 (by norm_num), fun h => absurd h hc⟩,
      fun _ => rfl⟩

/-- C4: every reconciled row carries `Total Llamadas` equal to the sum of its
two telephony call counts (`Llamadas Microsip + Llamadas VOIP`, the VOIP
count being the emitted constant `0`), and the emitted `Ind Llamadas` formula
on that cell yields `0.2` exactly when that two-source sum is ≥ 150 and `0`
otherwise. -/
theorem claim_C4 (pdParse : List Char → Option (Nat × Nat × Nat))
    (base_asesores : List Asesor) (admin_map : List (List Char × AdminRow))
    (llamadas_map : List (List Char × LlamadasRow)) (r : ReportRow)
    (hr : r ∈ generate_report_rows pdParse base_asesores admin_map llamadas_map) :
    r.totalLlamadas = r.llamadasMicrosip + r.llamadasVoip ∧
    (indLlamadasFormula (some r.totalLlamadas) = 2/10 ↔
      150 ≤ r.llamadasMicrosip + r.llamadasVoip) ∧
    (¬ 150 ≤ r.llamadasMicrosip + r.llamadasVoip →
      indLlamadasFormula (some r.totalLlamadas) = 0) := by
  obtain ⟨asesor, -, rfl⟩ := List.mem_map.mp hr
  dsimp only
  rw [add_zero]
  exact ⟨rfl, (indLlamadasFormula_spec _).1, (indLlamadasFormula_spec _).2⟩

/-- Witness for C4: a roster person with telephony extension `"9"` mapped to
200 calls gets `Total Llamadas = Microsip + VOIP = 200` and earns the `0.2`
call-volume reward. -/
theorem claim_C4_witness :
    indLlamadasFormula
      (some (ReportRow.totalLlamadas
        ⟨pystr "1", pystr "9", [], 200, 0, 200⟩)) = 2/10 :=
  ((claim_C4 pdCoerceNone [⟨pystr "1", pystr "9"⟩] []
      [(pystr "9", ⟨200⟩)] ⟨pystr "1", pystr "9", [], 200, 0, 200⟩
      (by decide)).2.1).mpr (by norm_num)

/-- C6 (amended): the token-overlap acceptance of the Schema Mapper accepts a
(normalized canonical name, normalized raw name) pair exactly when the
canonical name has at least one token and at least 80 % of its distinct
tokens are *members* of the raw name's token set (exact token equality, not
substring occurrence). -/
theorem claim_C6 (col_op col_r3 : List Char) :
    coincidenciaParcial col_op col_r3 = true ↔
      (palabras col_op ≠ [] ∧
       4 * (palabras col_op).toFinset.card ≤
         5 * ((palabras col_op).toFinset ∩ (palabras col_r3).toFinset).card) := by
  have hnd : (palabras col_op).Nodup := List.nodup_dedup _
  have hcardA : (palabras col_op).toFinset.card = (palabras col_op).length :=
    List.toFinset_card_of_nodup hnd
  have hfilter : ((palabras col_op).filter
      (fun t => t ∈ palabras col_r3)).length =
      ((palabras col_op).toFinset ∩ (palabras col_r3).toFinset).card := by
    classical
    have h1 : ((palabras col_op).filter
        (fun t => decide (t ∈ palabras col_r3))).toFinset =
        (palabras col_op).toFinset ∩ (palabras col_r3).toFinset := by
      rw [List.toFinset_filter]
      ext a
      simp [Finset.mem_filter, Finset.mem_inter, List.mem_toFinset]
    rw [← List.toFinset_card_of_nodup (hnd.filter _), h1]
  unfold coincidenciaParcial
  rw [Bool.and_eq_true, decide_eq_true_iff, decide_eq_true_iff, hcardA, hfilter]
  constructor
  · rintro ⟨h1, h2⟩
    exact ⟨List.length_pos.mp h1, by omega⟩
  · rintro ⟨h1, h2⟩
    have := List.length_pos.mpr h1
    exact ⟨this, by omega⟩

/-- Counterexample for C6: canonical token `"logueo"` occurs as a substring
inside the raw token `"logueos"`, so the spec's substring rule accepts the
pair, but the code's exact-token-set rule rejects it. -/
theorem claim_C6_counterexample :
    pystr "logueo" ≠ pystr "logueos" ∧
    coincidenciaParcialSpec (pystr "logueo") (pystr "logueos") = true ∧
    coincidenciaParcial (pystr "logueo") (pystr "logueos") = false := by
  decide

/-- Counterexample for C3: management text `"M0 PP PN"` matches the
`M0`-and-`PP` rule with detected application `PN`, but the classifier
returns `"M0-PN"`, not the claimed `"M0-PP-PN"`. -/
theorem claim_C3_counterexample :
    extract_cartera_from_gerencia_and_rango (pystr "M0 PP PN") (pystr "") =
      pystr "M0-PN" ∧
    pystr "M0-PN" ≠ pystr "M0-PP-PN" := by
  decide

/-- C3 (amended): for a management/range pair matched by the `M0`-and-`PP`
rule (rules 1–5 not matching) whose management text carries a non-FRS
application tag, the classifier returns `"M0-"` followed by the application
(`"M0-PN"` / `"M0-BT"`), the `PP` part being dropped by
`_validar_frs_con_rango`. -/
theorem claim_C3 (g r a : List Char)
    (hne : ¬ pyStrip g = [])
    (h1 : regla1 (pyStrip (pyUpper g)) (pyStrip (pyLower g)) = false)
    (h2 : regla2 (pyStrip (pyUpper g)) (pyStrip (pyLower g)) = false)
    (h3 : regla3 (pyStrip (pyUpper g)) (pyStrip (pyLower g)) = false)
    (h4 : regla4 (pyStrip (pyUpper g)) = false)
    (h5 : regla5 (pyStrip (pyUpper g)) (pyStrip (pyLower g)) = false)
    (h6 : regla6 (pyStrip (pyUpper g)) (pyStrip (pyLower g)) g = true)
    (hap : detectar_aplicativo g = some a)
    (hfrs : a ≠ pystr "FRS") :
    extract_cartera_from_gerencia_and_rango g r = pystr "M0-" ++ a := by
  unfold extract_cartera_from_gerencia_and_rango
  rw [if_neg hne]
  dsimp only
  simp only [h1, h2, h3, h4, h5, h6, hap, Bool.false_eq_true, if_false,
    if_true]
  unfold validar_frs_con_rango
  dsimp only
  rw [if_neg hfrs, if_pos (by decide :
    (pystr "M0").isPrefixOf (pystr "M0-PP") = true)]

/-- Witness for C3 (amended): `"M0 PP BT"` classifies as `"M0-BT"`. -/
theorem claim_C3_witness :
    extract_cartera_from_gerencia_and_rango (pystr "M0 PP BT") (pystr "") =
      pystr "M0-" ++ pystr "BT" :=
  claim_C3 (pystr "M0 PP BT") (pystr "") (pystr "BT") (by decide) (by decide)
    (by decide) (by decide) (by decide) (by decide) (by decide) (by decide)
    (by decide)

/-- Counterexample for C7: the whitespace-padded management text `"  ZZZ  "`
matches no cascade rule, and the classifier returns the *stripped* text
`"ZZZ"`, not the input string unchanged. -/
theorem claim_C7_counterexample :
    extract_cartera_from_gerencia_and_rango (pystr "  ZZZ  ") (pystr "") =
      pystr "ZZZ" ∧
    pystr "ZZZ" ≠ pystr "  ZZZ  " := by
  decide

/-- C7 (amended): for a management/range pair matched by no cascade rule,
the classifier returns the management text stripped of leading and trailing
whitespace (so only already-stripped inputs come back verbatim); it is a
total function, so classification never fails fatally. -/
theorem claim_C7 (g r : List Char)
    (hne : ¬ pyStrip g = [])
    (h1 : regla1 (pyStrip (pyUpper g)) (pyStrip (pyLower g)) = false)
    (h2 : regla2 (pyStrip (pyUpper g)) (pyStrip (pyLower g)) = false)
    (h3 : regla3 (pyStrip (pyUpper g)) (pyStrip (pyLower g)) = false)
    (h4 : regla4 (pyStrip (pyUpper g)) = false)
    (h5 : regla5 (pyStrip (pyUpper g)) (pyStrip (pyLower g)) = false)
    (h6 : regla6 (pyStrip (pyUpper g)) (pyStrip (pyLower g)) g = false)
    (h7 : regla7 (pyStrip (pyUpper g)) (pyStrip (pyLower g)) g = false) :
    extract_cartera_from_gerencia_and_rango g r = pyStrip g := by
  unfold extract_cartera_from_gerencia_and_rango
  rw [if_neg hne]
  dsimp only
  simp only [h1, h2, h3, h4, h5, h6, h7, Bool.false_eq_true, if_false]

/-- Witness for C7 (amended): the padded, rule-less `"  ZZZ  "` comes back
as its stripped form `"ZZZ"`. -/
theorem claim_C7_witness :
    extract_cartera_from_gerencia_and_rango (pystr "  ZZZ  ") (pystr "") =
      pyStrip (pystr "  ZZZ  ") :=
  claim_C7 (pystr "  ZZZ  ") (pystr "") (by decide) (by decide) (by decide)
    (by decide) (by decide) (by decide) (by decide) (by decide)

/-- Counterexample for C5: person `"1"` is present in the operations source
(with an empty login cell) and absent from telephony; reconciliation still
produces the record, but the row filter of lines 616–620 removes it, so the
emitted sheet holds no row for the person. -/
theorem claim_C5_counterexample :
    (List.lookup (pystr "1") [(pystr "1", (⟨[]⟩ : AdminRow))]).isSome = true ∧
    (generate_report_rows pdCoerceNone [⟨pystr "1", pystr "9"⟩]
      [(pystr "1", ⟨[]⟩)] []).length = 1 ∧
    filtrarSinLogueo (generate_report_rows pdCoerceNone
      [⟨pystr "1", pystr "9"⟩] [(pystr "1", ⟨[]⟩)] []) = [] := by
  decide

/-- C5 (amended): reconciliation itself never drops or fails a key — it
emits exactly one record per roster entry, and a key absent from the
telephony source gets explicit zero call counts; but the *emitted sheet*
afterwards retains exactly the records whose login field is neither empty
nor `'N/A'`. -/
theorem claim_C5 (pdParse : List Char → Option (Nat × Nat × Nat))
    (base_asesores : List Asesor) (admin_map : List (List Char × AdminRow))
    (llamadas_map : List (List Char × LlamadasRow)) :
    (generate_report_rows pdParse base_asesores admin_map llamadas_map).length
      = base_asesores.length ∧
    (∀ r ∈ generate_report_rows pdParse base_asesores admin_map llamadas_map,
      List.lookup r.ext llamadas_map = none →
        r.llamadasMicrosip = 0 ∧ r.llamadasVoip = 0 ∧ r.totalLlamadas = 0) ∧
    (∀ r : ReportRow,
      r ∈ filtrarSinLogueo
        (generate_report_rows pdParse base_asesores admin_map llamadas_map) ↔
      r ∈ generate_report_rows pdParse base_asesores admin_map llamadas_map ∧
        ¬ (r.logueo = [] ∨ r.logueo = pystr "N/A")) := by
  refine ⟨List.length_map _ _, ?_, ?_⟩
  · intro r hr hnone
    obtain ⟨asesor, -, rfl⟩ := List.mem_map.mp hr
    dsimp only at hnone ⊢
    rw [hnone]
    exact ⟨rfl, rfl, rfl⟩
  · intro r
    simp [filtrarSinLogueo, List.mem_filter]

/-- Witness for C5 (amended): a roster person reconciled against empty
operations and telephony sources still yields exactly one record, whose
call totals are the explicit zero marker. -/
theorem claim_C5_witness :
    (generate_report_rows pdCoerceNone [⟨pystr "2", pystr "7"⟩] [] []).length
      = 1 ∧
    ReportRow.totalLlamadas ⟨pystr "2", pystr "7", [], 0, 0, 0⟩ = 0 :=
  ⟨(claim_C5 pdCoerceNone [⟨pystr "2", pystr "7"⟩] [] []).1,
   ((claim_C5 pdCoerceNone [⟨pystr "2", pystr "7"⟩] [] []).2.1
     ⟨pystr "2", pystr "7", [], 0, 0, 0⟩ (by decide) (by decide)).2.2⟩

/-- Counterexample for C8: the unparseable token `"abc"` (no time format
matches, pandas fallback yields `NaT`) is returned as-is by
`convertir_hora_formato` — a non-empty string, not an empty/absent marker. -/
theorem claim_C8_counterexample :
    convertir_hora_formato pdCoerceNone (pystr "abc") = pystr "abc" ∧
    pystr "abc" ≠ ([] : List Char) := by
  decide

/-- C8 (amended): on input the Time Normalizer cannot parse (none of the
four `strptime` formats match, no `AM`/`PM` passthrough applies, and the
pandas fallback yields `NaT`), `convertir_hora_formato` returns the
original string (stripped) unchanged — never the current time and never an
exception — while the empty marker is produced only for empty input
(`convertir_hora_formato pdParse [] = []` holds by definition). -/
theorem claim_C8 (pdParse : List Char → Option (Nat × Nat × Nat))
    (hora_str : List Char)
    (hempty : ¬ hora_str = [])
    (hampm : (containsSub (pystr "AM") (pyUpper (pyStrip hora_str)) ||
              containsSub (pystr "PM") (pyUpper (pyStrip hora_str))) = false)
    (hf1 : strptimeHMS (pyStrip hora_str) = none)
    (hf2 : strptimeHM (pyStrip hora_str) = none)
    (hf3 : strptimeIMSp (pyStrip hora_str) = none)
    (hf4 : strptimeIMp (pyStrip hora_str) = none)
    (hpd : pdParse (pyStrip hora_str) = none) :
    convertir_hora_formato pdParse hora_str = pyStrip hora_str := by
  unfold convertir_hora_formato
  rw [if_neg hempty]
  dsimp only
  simp only [hampm, Bool.false_eq_true, if_false, hf1, hf2, hf3, hf4, hpd]

/-- Witness for C8 (amended): the unparseable `"xyz"` comes back as itself
(its stripped form), not as an empty marker. -/
theorem claim_C8_witness :
    convertir_hora_formato pdCoerceNone (pystr "xyz") = pyStrip (pystr "xyz") :=
  claim_C8 pdCoerceNone (pystr "xyz") (by decide) (by decide) (by decide)
    (by decide) (by decide) (by decide) (by decide)

/-! ### Auxiliary lemmas for C9 (idempotence of `convert_time_format`) -/

/-- `dropWhile` leaves a list whose head fails the predicate untouched. -/
theorem dropWhile_cons_false {p : Char → Bool} {c : Char} (t : List Char)
    (h : p c = false) : List.dropWhile p (c :: t) = c :: t := by
  simp [List.dropWhile_cons, h]

/-- The head of a `dropWhile` result fails the predicate. -/
theorem dropWhile_head?_false {p : Char → Bool} :
    ∀ (l : List Char) (c : Char),
      (List.dropWhile p l).head? = some c → p c = false := by
  intro l
  induction l with
  | nil => intro c hc; cases hc
  | cons a t ih =>
    intro c hc
    by_cases hp : p a = true
    · rw [List.dropWhile_cons, if_pos hp] at hc
      exact ih c hc
    · rw [List.dropWhile_cons, if_neg hp] at hc
      cases hc
      simpa using hp

/-- The last element survives `dropWhile`. -/
theorem dropWhile_getLast?_some {p : Char → Bool} :
    ∀ (l : List Char) (c : Char),
      (List.dropWhile p l).getLast? = some c → l.getLast? = some c := by
  intro l
  induction l with
  | nil => intro c hc; cases hc
  | cons a t ih =>
    intro c hc
    by_cases hp : p a = true
    · rw [List.dropWhile_cons, if_pos hp] at hc
      have ht := ih c hc
      have htne : t ≠ [] := by
        intro he
        subst he
        cases ht
      obtain ⟨b, u, rfl⟩ := List.exists_cons_of_ne_nil htne
      rw [show (a :: b :: u).getLast? = (b :: u).getLast? by
        simp [List.getLast?]]
      exact ht
    · rw [List.dropWhile_cons, if_neg hp] at hc
      exact hc

/-- A list whose head and last element are not whitespace is a `pyStrip`
fixed point. -/
theorem pyStrip_eq_self {l : List Char}
    (h1 : ∀ c, l.head? = some c → c.isWhitespace = false)
    (h2 : ∀ c, l.getLast? = some c → c.isWhitespace = false) :
    pyStrip l = l := by
  cases l with
  | nil => rfl
  | cons a t =>
    unfold pyStrip
    rw [dropWhile_cons_false t (h1 a rfl)]
    cases hre : (a :: t).reverse with
    | nil => exact absurd (List.reverse_eq_nil_iff.mp hre) (by simp)
    | cons d u =>
      have hd : (a :: t).getLast? = some d := by
        rw [← List.head?_reverse, hre]
        rfl
      rw [dropWhile_cons_false u (h2 d hd), ← hre, List.reverse_reverse]

/-- The head of a stripped string is not whitespace. -/
theorem pyStrip_head?_not_ws (l : List Char) (c : Char)
    (hc : (pyStrip l).head? = some c) : c.isWhitespace = false := by
  unfold pyStrip at hc
  rw [List.head?_reverse] at hc
  have h2 := dropWhile_getLast?_some _ c hc
  rw [List.getLast?_reverse] at h2
  exact dropWhile_head?_false _ c h2

/-- The last element of a stripped string is not whitespace. -/
theorem pyStrip_getLast?_not_ws (l : List Char) (c : Char)
    (hc : (pyStrip l).getLast? = some c) : c.isWhitespace = false := by
  unfold pyStrip at hc
  rw [List.getLast?_reverse] at hc
  exact dropWhile_head?_false _ c hc

/-- Python's `strip` is idempotent. -/
theorem pyStrip_idem (l : List Char) : pyStrip (pyStrip l) = pyStrip l :=
  pyStrip_eq_self (pyStrip_head?_not_ws l) (pyStrip_getLast?_not_ws l)

/-- A suffix occurs as a substring. -/
theorem containsSub_of_suffix {n : List Char} :
    ∀ {h : List Char}, n <:+ h → containsSub n h = true := by
  intro h
  induction h with
  | nil =>
    intro hs
    rw [List.suffix_nil.mp hs]
    rfl
  | cons c rest ih =>
    intro hs
    show (n.isPrefixOf (c :: rest) || containsSub n rest) = true
    rcases List.suffix_cons_iff.mp hs with h1 | h2
    · rw [h1, List.isPrefixOf_iff_prefix.mpr (List.prefix_refl _)]
      rfl
    · rw [ih h2, Bool.or_true]

/-- A decimal digit character is not whitespace. -/
theorem digit_char_not_ws (k : Nat) (hk : k < 10) :
    (Char.ofNat (48 + k)).isWhitespace = false := by
  interval_cases k <;> decide

/-- `natToStrAux` with positive fuel yields a digit-headed list. -/
theorem natToStrAux_head :
    ∀ (fuel n : Nat) (acc : List Char), 1 ≤ fuel →
      ∃ c t, natToStrAux fuel n acc = c :: t ∧ c.isWhitespace = false := by
  intro fuel
  induction fuel with
  | zero => intro n acc h; omega
  | succ f ih =>
    intro n acc _
    by_cases hn : n < 10
    · exact ⟨Char.ofNat (48 + n % 10), acc,
        by simp [natToStrAux, hn],
        digit_char_not_ws (n % 10) (Nat.mod_lt _ (by norm_num))⟩
    · rcases Nat.eq_zero_or_pos f with h0 | hpos
      · subst h0
        exact ⟨Char.ofNat (48 + n % 10), acc,
          by simp [natToStrAux, hn],
          digit_char_not_ws (n % 10) (Nat.mod_lt _ (by norm_num))⟩
      · obtain ⟨c, t, he, hw⟩ :=
          ih (n / 10) (Char.ofNat (48 + n % 10) :: acc) hpos
        exact ⟨c, t, by simp [natToStrAux, hn, he], hw⟩

/-- `intToStr` is nonempty and its head is not whitespace. -/
theorem intToStr_head (i : Int) :
    ∃ c t, intToStr i = c :: t ∧ c.isWhitespace = false := by
  unfold intToStr
  by_cases hneg : i < 0
  · exact ⟨'-', natToStr i.natAbs, by simp [hneg], by decide⟩
  · obtain ⟨c, t, he, hw⟩ := natToStrAux_head (i.natAbs + 1) i.natAbs []
      (by omega)
    exact ⟨c, t, by simp [hneg, natToStr, he], hw⟩

/-- Shape of a formatted `H:MM:SS AM/PM` string: digit- or sign-headed,
`'M'`-tailed, and (upper-cased) containing `AM` or `PM`. -/
theorem fmtShape (i : Int) (m s P : List Char)
    (hP : P = pystr "AM" ∨ P = pystr "PM") :
    ∃ c t, intToStr i ++ [':'] ++ m ++ [':'] ++ s ++ [' '] ++ P = c :: t ∧
      c.isWhitespace = false ∧
      (∀ d, (c :: t).getLast? = some d → d.isWhitespace = false) ∧
      (containsSub (pystr "AM") (pyUpper (c :: t)) ||
       containsSub (pystr "PM") (pyUpper (c :: t))) = true := by
  obtain ⟨c, t0, he, hw⟩ := intToStr_head i
  have hPne : P ≠ [] := by rcases hP with h | h <;> subst h <;> decide
  have hPlast : P.getLast? = some 'M' := by
    rcases hP with h | h <;> subst h <;> rfl
  have hPup : pyUpper P = P := by
    rcases hP with h | h <;> subst h <;> decide
  refine ⟨c, t0 ++ [':'] ++ m ++ [':'] ++ s ++ [' '] ++ P, ?_, hw, ?_, ?_⟩
  · rw [he]
    simp [List.cons_append, List.append_assoc]
  · intro d hd
    have hsplit : c :: (t0 ++ [':'] ++ m ++ [':'] ++ s ++ [' '] ++ P) =
        (c :: (t0 ++ [':'] ++ m ++ [':'] ++ s ++ [' '])) ++ P := by
      simp [List.cons_append, List.append_assoc]
    rw [hsplit, List.getLast?_append_of_ne_nil _ hPne, hPlast] at hd
    cases hd
    decide
  · have hsplit : c :: (t0 ++ [':'] ++ m ++ [':'] ++ s ++ [' '] ++ P) =
        (c :: (t0 ++ [':'] ++ m ++ [':'] ++ s ++ [' '])) ++ P := by
      simp [List.cons_append, List.append_assoc]
    have hup2 : pyUpper (c :: (t0 ++ [':'] ++ m ++ [':'] ++ s ++ [' '] ++ P)) =
        pyUpper (c :: (t0 ++ [':'] ++ m ++ [':'] ++ s ++ [' '])) ++ P := by
      rw [show pyUpper (c :: (t0 ++ [':'] ++ m ++ [':'] ++ s ++ [' '] ++ P)) =
            List.map Char.toUpper
              ((c :: (t0 ++ [':'] ++ m ++ [':'] ++ s ++ [' '])) ++ P) by
          rw [← hsplit]; rfl]
      rw [List.map_append, show List.map Char.toUpper P = P from hPup]
      rfl
    have hsuf : P <:+
        pyUpper (c :: (t0 ++ [':'] ++ m ++ [':'] ++ s ++ [' '] ++ P)) :=
      ⟨pyUpper (c :: (t0 ++ [':'] ++ m ++ [':'] ++ s ++ [' '])), hup2.symm⟩
    rcases hP with h | h
    · rw [Bool.or_eq_true]
      left
      rw [← h]
      exact containsSub_of_suffix hsuf
    · rw [Bool.or_eq_true]
      right
      rw [← h]
      exact containsSub_of_suffix hsuf

/-- `convert_time_format` fixes every formatted `H:MM:SS AM/PM` string. -/
theorem convert_fmt_fix (i : Int) (m s P : List Char)
    (hP : P = pystr "AM" ∨ P = pystr "PM") :
    convert_time_format (intToStr i ++ [':'] ++ m ++ [':'] ++ s ++ [' '] ++ P) =
      intToStr i ++ [':'] ++ m ++ [':'] ++ s ++ [' '] ++ P := by
  obtain ⟨c, t, he, hw, hlast, hcont⟩ := fmtShape i m s P hP
  rw [he]
  unfold convert_time_format
  rw [if_neg (by simp : ¬ (c :: t) = [])]
  unfold convertBody
  rw [pyStrip_eq_self (fun d hd => by cases hd; exact hw) hlast, if_pos hcont]

/-- `convert_time_format` fixes every `fmt12` output. -/
theorem convert_fmt12_fix (hour : Int) (minute second : List Char) :
    convert_time_format (fmt12 hour minute second) = fmt12 hour minute second := by
  unfold fmt12
  dsimp only
  exact convert_fmt_fix _ minute second _
    (by by_cases h : hour < 12 <;> simp [h])

/-- Case analysis of `convertParts`: the result is a `fmt12` formatting, the
untouched original `value` (the `except:` path), the empty string, or the
stripped `value_str` together with the facts that force that same branch on
re-entry. -/
theorem convertParts_cases (value str : List Char) (parts : List (List Char)) :
    (∃ hour mn sec, convertParts value str parts = fmt12 hour mn sec) ∨
    convertParts value str parts = value ∨
    convertParts value str parts = [] ∨
    (convertParts value str parts = str ∧ ¬ 3 ≤ parts.length ∧
      ¬ parts.length = 2 ∧ str ≠ [] ∧ str ≠ pystr "nan") := by
  unfold convertParts
  by_cases h3 : 3 ≤ parts.length
  · rw [if_pos h3]
    cases hint : pyInt (parts.getD 0 []) with
    | some hour =>
      left
      exact ⟨hour, zfill2 (parts.getD 1 []), zfill2 (parts.getD 2 []), rfl⟩
    | none =>
      by_cases hnan : value ≠ pystr "nan"
      · rw [if_pos hnan]
        right; left; rfl
      · rw [if_neg hnan]
        right; right; left; rfl
  · rw [if_neg h3]
    by_cases h2 : parts.length = 2
    · rw [if_pos h2]
      cases hint : pyInt (parts.getD 0 []) with
      | some hour =>
        left
        exact ⟨hour, zfill2 (parts.getD 1 []), pystr "00", rfl⟩
      | none =>
        by_cases hnan : value ≠ pystr "nan"
        · rw [if_pos hnan]
          right; left; rfl
        · rw [if_neg hnan]
          right; right; left; rfl
    · rw [if_neg h2]
      by_cases hnn : str ≠ [] ∧ str ≠ pystr "nan"
      · rw [if_pos hnn]
        right; right; right; exact ⟨rfl, h3, h2, hnn.1, hnn.2⟩
      · rw [if_neg hnn]
        right; right; left; rfl

/-- The heart of C9: a `convertBody` output is either a fixed point of
`convert_time_format`, or it is the untouched original `value` (the
`except:` path returns `str(value)` as-is). -/
theorem convertBody_fix (value str : List Char) (hstr : str = pyStrip value) :
    convert_time_format (convertBody value str) = convertBody value str ∨
    convertBody value str = value := by
  have hss : pyStrip str = str := by rw [hstr]; exact pyStrip_idem value
  unfold convertBody
  by_cases hampm : (containsSub (pystr "AM") (pyUpper str) ||
      containsSub (pystr "PM") (pyUpper str)) = true
  · rw [if_pos hampm]
    left
    have hsne : str ≠ [] := by
      intro he
      rw [he] at hampm
      exact absurd hampm (by decide)
    unfold convert_time_format
    rw [if_neg hsne]
    unfold convertBody
    rw [hss, if_pos hampm]
  · rw [if_neg hampm]
    by_cases hsp : (containsSub (pystr " ") str &&
        containsSub (pystr ":") str) = true
    · rw [if_pos hsp]
      rcases convertParts_cases value str
          (pySplitOn ':' ((pySplitOn ' ' str).getD 1 [])) with
        ⟨hour, mn, sec, he⟩ | he | he | ⟨he, hn3, hn2, hne, hnan⟩
      · left; rw [he]; exact convert_fmt12_fix hour mn sec
      · right; exact he
      · left; rw [he]; rfl
      · left
        rw [he]
        unfold convert_time_format
        rw [if_neg hne]
        unfold convertBody
        rw [hss, if_neg hampm, if_pos hsp]
        unfold convertParts
        rw [if_neg hn3, if_neg hn2, if_pos ⟨hne, hnan⟩]
    · rw [if_neg hsp]
      by_cases hcol : containsSub (pystr ":") str = true
      · rw [if_pos hcol]
        rcases convertParts_cases value str (pySplitOn ':' str) with
          ⟨hour, mn, sec, he⟩ | he | he | ⟨he, hn3, hn2, hne, hnan⟩
        · left; rw [he]; exact convert_fmt12_fix hour mn sec
        · right; exact he
        · left; rw [he]; rfl
        · left
          rw [he]
          unfold convert_time_format
          rw [if_neg hne]
          unfold convertBody
          rw [hss, if_neg hampm, if_neg hsp, if_pos hcol]
          unfold convertParts
          rw [if_neg hn3, if_neg hn2, if_pos ⟨hne, hnan⟩]
      · rw [if_neg hcol]
        by_cases hnn : str ≠ [] ∧ str ≠ pystr "nan"
        · rw [if_pos hnn]
          left
          unfold convert_time_format
          rw [if_neg hnn.1]
          unfold convertBody
          rw [hss, if_neg hampm, if_neg hsp, if_neg hcol, if_pos hnn]
        · rw [if_neg hnn]
          left
          rfl

/-- C9: `convert_time_format` is idempotent — converting its own output
returns that output unchanged, for every string input. -/
theorem claim_C9 (value : List Char) :
    convert_time_format (convert_time_format value) =
      convert_time_format value := by
  by_cases h0 : value = []
  · subst h0; rfl
  · have hv : convert_time_format value = convertBody value (pyStrip value) := by
      unfold convert_time_format
      rw [if_neg h0]
    rcases convertBody_fix value (pyStrip value) rfl with h | h
    · rw [hv]
      exact h
    · rw [hv, h, hv]
      exact h
